import Mathlib

/-!
Shallow embedding of the document-ingestion pipeline in
`src/flows/s3_to_snowflake.py` (landing-ai-document-pipeline).

The Python code is a thin sequential script.  We embed:

* the response-shaping logic of `extract_document_content` (how the raw
  objects returned by the external `parse` call are turned into the
  serializable `formatted_result` dictionary);
* the SQL executor `_exec_sql`, the infrastructure provisioner
  `setup_snowflake_infrastructure` and the upsert loader
  `load_to_snowflake`, over an abstract cursor oracle that says, for each
  statement text, whether `execute`/`fetchall` raises and with which
  message;
* the semantics of the MERGE statement issued by the loader, as a
  function on an abstract table state (a list of rows);
* the driver flow `s3_to_snowflake_flow`, as a function from an
  environment (secret value, bucket listing, per-key outcomes of the
  three external calls) to the trace of calls it performs and its
  outcome.

Python attribute presence (`hasattr`) is modelled with `Option`; Python
exceptions are modelled with `Except String`, the `String` being the
exception text; Python truthiness of a list is modelled by an emptiness
test.
-/

set_option maxRecDepth 20000

namespace S3ToSnowflake

/-- Python `str.replace(old, new)` for a non-empty `old`: replace each
non-overlapping occurrence, scanning left to right.  Fuel-driven
structural recursion; `fuel = s.length` suffices because every step
consumes at least one character of the scanned list. -/
def replaceCharsAux (old rep : List Char) : Nat → List Char → List Char
  | 0, s => s
  | _ + 1, [] => []
  | fuel + 1, c :: rest =>
      if old.isPrefixOf (c :: rest) then
        rep ++ replaceCharsAux old rep fuel ((c :: rest).drop old.length)
      else
        c :: replaceCharsAux old rep fuel rest

/-- Python `s.replace(old, rep)` (for the non-empty `old` used here). -/
def pyReplace (s old rep : String) : String :=
  ⟨replaceCharsAux old.data rep.data s.data.length s.data⟩

/-- Python `s.lower()` for the ASCII descriptions used here. -/
def pyLower (s : String) : String :=
  ⟨s.data.map Char.toLower⟩

/-! ### Data returned by the external extraction service

`agentic_doc.parse` returns a list of result objects.  Each result may
have a `markdown` string and a `chunks` list; each chunk may have
`text`, a `chunk_type` (with a `.value`), a `chunk_id`, and a
`grounding` list; each grounding may have a `page` and a `box` with
edges `l`, `t`, `r`, `b`.  The Python code probes every one of these
with `hasattr`, so each field is an `Option`; `strRepr` stands for the
`str(...)` fallback rendering of the object.  Box edges are numbers the
code merely copies, modelled as `Int`. -/

structure SrcBox where
  l : Option Int
  t : Option Int
  r : Option Int
  b : Option Int
deriving Repr, DecidableEq

structure SrcGrounding where
  page : Option Nat
  box : Option SrcBox
deriving Repr, DecidableEq

structure SrcChunk where
  text : Option String
  strRepr : String
  chunk_type : Option String
  chunk_id : Option String
  grounding : Option (List SrcGrounding)
deriving Repr, DecidableEq

structure ParseResult where
  markdown : Option String
  strRepr : String
  chunks : Option (List SrcChunk)
deriving Repr, DecidableEq

/-! ### The serializable shapes built by `extract_document_content` -/

structure BoxDict where
  l : Int
  t : Int
  r : Int
  b : Int
deriving Repr, DecidableEq

structure GroundingDict where
  page : Nat
  box : Option BoxDict
deriving Repr, DecidableEq

structure ChunkDict where
  text : String
  chunk_type : String
  chunk_id : Option String
  grounding : Option (List GroundingDict)
deriving Repr, DecidableEq

structure ExtractedSchema where
  file_name : String
  file_size : Nat
deriving Repr, DecidableEq

structure ExtractionMetadata where
  timestamp : String
  library : String
deriving Repr, DecidableEq

structure ExtractionData where
  markdown : String
  chunks : List ChunkDict
  extracted_schema : ExtractedSchema
  extraction_metadata : ExtractionMetadata
deriving Repr, DecidableEq

structure FormattedResult where
  data : ExtractionData
deriving Repr, DecidableEq

/-- Embeds the `grounding_dict` construction of
`extract_document_content` (s3_to_snowflake.py lines 79-89): the page
defaults to `0` when absent, the `"box"` key is present exactly when the
source grounding has a `box` attribute, each edge defaulting to `0`;
the grounding dict is appended to the chunk's list unconditionally. -/
def mkGroundingDict (g : SrcGrounding) : GroundingDict :=
  { page := g.page.getD 0
    box := g.box.map fun bx =>
      { l := bx.l.getD 0, t := bx.t.getD 0, r := bx.r.getD 0, b := bx.b.getD 0 } }

/-- Embeds the `chunk_dict` construction of `extract_document_content`
(lines 70-90): `text` falls back to `str(chunk)`, `chunk_type` falls
back to `"text"`, and the `"grounding"` key is present exactly when the
chunk has a `grounding` attribute that is truthy (a non-empty list). -/
def mkChunkDict (c : SrcChunk) : ChunkDict :=
  { text := c.text.getD c.strRepr
    chunk_type := c.chunk_type.getD "text"
    chunk_id := c.chunk_id
    grounding :=
      match c.grounding with
      | some gs => if gs.isEmpty then none else some (gs.map mkGroundingDict)
      | none => none }

/-- Embeds the `serializable_chunks` loop (lines 67-90): the list is
built only when the result has a truthy `chunks` attribute. -/
def serializableChunks (r : ParseResult) : List ChunkDict :=
  match r.chunks with
  | some cs => if cs.isEmpty then [] else cs.map mkChunkDict
  | none => []

/-- The `formatted_result` dictionary built from `results[0]` (lines
93-100): it mentions only the first result, the `extracted_schema`
records the file key and byte size, and the `extraction_metadata` is a
hard-coded literal. -/
def formatResult (result : ParseResult) (file_key : String)
    (file_size : Nat) : FormattedResult :=
  { data :=
    { markdown := result.markdown.getD result.strRepr
      chunks := serializableChunks result
      extracted_schema := { file_name := file_key, file_size := file_size }
      extraction_metadata := { timestamp := "2025-06-06", library := "agentic-doc" } } }

/-- Embeds the response-shaping part of `extract_document_content`
(lines 62-109), starting from the value `results` returned by `parse`
(`none` models an absent/`None` answer; both `none` and `some []` fail
the `if results and len(results) > 0` guard): for a falsy or empty
`results`, `ValueError("Empty results")` is raised (and re-raised by the
catch-all handler, so it propagates); otherwise only `results[0]` is
used to build `formatted_result`. -/
def shape_extraction (results : Option (List ParseResult)) (file_key : String)
    (file_size : Nat) : Except String FormattedResult :=
  match results with
  | none => .error "Empty results"
  | some [] => .error "Empty results"
  | some (result :: _) => .ok (formatResult result file_key file_size)

/-! ### Warehouse cursor oracle and the SQL executor `_exec_sql`

A `Cursor` abstracts the snowflake cursor: `exec sql` is the outcome of
`cur.execute(sql)` and `fetch sql` the outcome of the `cur.fetchall()`
that immediately follows a successful `execute(sql)`; `.error e` models
the call raising an exception with text `e`.  Rows are lists of strings
(their content is only logged). -/

structure Cursor where
  exec : String → Except String Unit
  fetch : String → Except String (List (List String))

/-- A log line, at the level (`info`/`warning`) the Python logger uses. -/
inductive LogEvent where
  | info (msg : String)
  | warning (msg : String)
deriving Repr, DecidableEq

/-- The outcome of running a piece of the pipeline against a cursor:
the statement texts passed to `cur.execute`, in order; the log lines
emitted; and whether the piece returned normally (`.ok`) or raised
(`.error` with the exception text). -/
structure StepResult where
  statements : List String
  log : List LogEvent
  outcome : Except String Unit
deriving Repr

/-- One `cur.execute(sql)` followed by `cur.fetchall()`: raises
(`.error`) if either call raises. -/
def attemptStmt (cur : Cursor) (sql : String) : Except String (List (List String)) :=
  match cur.exec sql with
  | .error e => .error e
  | .ok _ => cur.fetch sql

/-- Embeds `_exec_sql` (s3_to_snowflake.py lines 134-143): execute the
statement, fetch all rows, log the result and row count; on any
exception, log a warning built from the lower-cased description and the
exception text, and return normally.  The `outcome` is the value the
caller observes: we prove it is always `.ok`. -/
def exec_sql (cur : Cursor) (sql : String) (desc : String) : StepResult :=
  { statements := [sql]
    log :=
      match attemptStmt cur sql with
      | .ok rows =>
          [.info ("Executing SQL: " ++ sql),
           .info (desc ++ " - SQL result: " ++ toString rows),
           .info (desc ++ " - Row count")]
      | .error e =>
          [.info ("Executing SQL: " ++ sql),
           .warning ("Could not " ++ pyLower desc ++ ": " ++ e)]
    outcome := .ok () }

/-! ### Infrastructure provisioner `setup_snowflake_infrastructure` -/

def warehouse_sql : String :=
  "CREATE WAREHOUSE IF NOT EXISTS PREFECT_WH WITH WAREHOUSE_SIZE = 'X-SMALL'"

def database_sql : String := "CREATE DATABASE IF NOT EXISTS ai"

def use_database_sql : String := "USE DATABASE ai"

def schema_sql : String := "CREATE SCHEMA IF NOT EXISTS AGENTIC_DOC_EXTRACTION"

def use_schema_sql : String := "USE SCHEMA AGENTIC_DOC_EXTRACTION"

def context_sql : String :=
  "SELECT CURRENT_DATABASE(), CURRENT_SCHEMA(), CURRENT_WAREHOUSE()"

/-- The qualified table-creation statement (lines 166-169). -/
def table_sql : String :=
  "CREATE TABLE IF NOT EXISTS ai.AGENTIC_DOC_EXTRACTION.DOCS (\n" ++
  "                ID NUMBER AUTOINCREMENT PRIMARY KEY, FILE_NAME VARCHAR(255),\n" ++
  "                FILE_PATH VARCHAR(500) UNIQUE, PROCESS_DATE TIMESTAMP_NTZ DEFAULT CURRENT_TIMESTAMP(),\n" ++
  "                EXTRACTED_CONTENT VARIANT)"

/-- The fallback statement `table_sql.replace(\"ai.AGENTIC_DOC_EXTRACTION.\", \"\")` (line 173). -/
def simple_table_sql : String := pyReplace table_sql "ai.AGENTIC_DOC_EXTRACTION." ""

/-- Embeds `setup_snowflake_infrastructure` (lines 146-173): five
`_exec_sql` steps, the context read-back wrapped in `try/except: pass`,
then `try: _exec_sql(table_sql) except: _exec_sql(simple)`.  The `except`
branch runs exactly when the `_exec_sql` call for the qualified create
raises, i.e. when its outcome is `.error`. -/
def setup_snowflake_infrastructure (cur : Cursor) : StepResult :=
  let s1 := exec_sql cur warehouse_sql "Create warehouse"
  let s2 := exec_sql cur database_sql "Create database"
  let s3 := exec_sql cur use_database_sql "Use database"
  let s4 := exec_sql cur schema_sql "Create schema"
  let s5 := exec_sql cur use_schema_sql "Use schema"
  let ctxLog : List LogEvent :=
    match attemptStmt cur context_sql with
    | .ok _ => [.info "Context"]
    | .error _ => []
  let s6 := exec_sql cur table_sql "Create qualified table"
  let tail :=
    match s6.outcome with
    | .ok _ => { s6 with log := s6.log }
    | .error _ =>
        let s7 := exec_sql cur simple_table_sql "Create simple table"
        { statements := s6.statements ++ s7.statements
          log := s6.log ++ s7.log
          outcome := s7.outcome }
  { statements := s1.statements ++ s2.statements ++ s3.statements ++
      s4.statements ++ s5.statements ++ [context_sql] ++ tail.statements
    log := s1.log ++ s2.log ++ s3.log ++ s4.log ++ s5.log ++ ctxLog ++ tail.log
    outcome := tail.outcome }

/-! ### Upsert loader `load_to_snowflake` -/

/-- The qualified MERGE statement (lines 183-187). -/
def merge_sql : String :=
  "MERGE INTO ai.AGENTIC_DOC_EXTRACTION.DOCS AS target\n" ++
  "                USING (SELECT %s AS file_name, %s AS file_path, %s AS extracted_content) AS source\n" ++
  "                ON target.FILE_PATH = source.file_path\n" ++
  "                WHEN NOT MATCHED THEN INSERT (FILE_NAME, FILE_PATH, EXTRACTED_CONTENT)\n" ++
  "                VALUES (source.file_name, source.file_path, PARSE_JSON(source.extracted_content))"

/-- The fallback statement `merge_sql.replace(\"ai.AGENTIC_DOC_EXTRACTION.\", \"\")` (line 201). -/
def simple_merge_sql : String := pyReplace merge_sql "ai.AGENTIC_DOC_EXTRACTION." ""

/-- Embeds `load_to_snowflake` (lines 176-207): after two `_exec_sql`
context steps, the qualified MERGE is executed directly (`cur.execute`
then `cur.fetchall`) inside a `try`; on any exception the handler logs a
warning and executes the unqualified variant directly, with no further
handler, so an exception of the second attempt is the outcome. -/
def load_to_snowflake (cur : Cursor) (file_key : String) : StepResult :=
  let s1 := exec_sql cur use_database_sql "Use database"
  let s2 := exec_sql cur use_schema_sql "Use schema"
  let pre := s1.statements ++ s2.statements
  let preLog := s1.log ++ s2.log
  match attemptStmt cur merge_sql with
  | .ok _ =>
      { statements := pre ++ [merge_sql]
        log := preLog ++ [.info ("Loaded " ++ file_key ++ " to Snowflake")]
        outcome := .ok () }
  | .error e =>
      let warnLog := [LogEvent.warning ("Qualified MERGE failed: " ++ e)]
      match attemptStmt cur simple_merge_sql with
      | .ok _ =>
          { statements := pre ++ [merge_sql, simple_merge_sql]
            log := preLog ++ warnLog ++
              [.info ("Loaded " ++ file_key ++ " to Snowflake (simple)")]
            outcome := .ok () }
      | .error e2 =>
          { statements := pre ++ [merge_sql, simple_merge_sql]
            log := preLog ++ warnLog
            outcome := .error e2 }

/-! ### Semantics of the MERGE statement on an abstract table state

The MERGE the loader issues has a single `WHEN NOT MATCHED THEN INSERT`
branch matched on `FILE_PATH`; there is no `WHEN MATCHED` branch.  We
model the persisted `DOCS` table as a list of rows and the statement's
effect as a function on it.  The bind parameters are
`(file_key.split('/')[-1], file_key, json.dumps(extracted_content))`
(line 189). -/

structure DocRecord where
  file_name : String
  file_path : String
  extracted_content : String
deriving Repr, DecidableEq

/-- Python `file_key.split('/')[-1]`: the last `/`-separated segment. -/
def lastSegment (file_key : String) : String :=
  (file_key.splitOn "/").getLastD ""

/-- Effect of one MERGE from `load_to_snowflake` on the table state:
insert `(FILE_NAME, FILE_PATH, EXTRACTED_CONTENT)` when no existing row
has the same `FILE_PATH`; change nothing when one does. -/
def mergeDoc (table : List DocRecord) (file_key : String)
    (content : String) : List DocRecord :=
  if table.any (fun r => r.file_path = file_key) then table
  else table ++ [{ file_name := lastSegment file_key
                   file_path := file_key
                   extracted_content := content }]

/-- Number of rows of the table with the given file path. -/
def countPath (table : List DocRecord) (p : String) : Nat :=
  (table.filter (fun r => r.file_path = p)).length

/-! ### The driver flow `s3_to_snowflake_flow`

The flow's environment bundles what the external collaborators answer:
the value of the `s3-bucket-name` secret (`none` models a missing or
`None` value, and the empty string is also falsy in the `if not
s3_bucket_name` check); the bucket listing returned by `list_objects()`
(`none` models an absent/`None` answer); and, per key, the outcome of
the download, of the extraction and of the load (`.error e` models the
call raising).  The trace records the external calls the driver makes,
in order. -/

structure S3Object where
  Key : String
deriving Repr, DecidableEq

structure Env where
  bucketNameSecret : Option String
  listing : Option (List S3Object)
  download : String → Except String String
  extractCall : String → Except String FormattedResult
  loadCall : String → Except String Unit

inductive FlowEvent where
  | createBucket (name : String)
  | setupSnowflake
  | listFiles
  | download (key : String)
  | extract (key : String)
  | load (key : String)
deriving Repr, DecidableEq

/-- Holds exactly on the per-file calls of the processing loop. -/
def isProcessingEvent : FlowEvent → Bool
  | .download _ => true
  | .extract _ => true
  | .load _ => true
  | _ => false

/-- Embeds `list_s3_files` (lines 16-23): a falsy `objects` value
(absent, or an empty list) yields `[]`; otherwise the `Key` of each
object descriptor. -/
def list_s3_files (objects : Option (List S3Object)) : List String :=
  match objects with
  | none => []
  | some objs => if objs.isEmpty then [] else objs.map (fun o => o.Key)

/-- Embeds `process_document` (lines 210-215): download, then extract,
then load, each aborting the document (and any remaining work) when it
raises. -/
def process_document (env : Env) (file_key : String) :
    List FlowEvent × Except String Unit :=
  match env.download file_key with
  | .error e => ([.download file_key], .error e)
  | .ok _ =>
      match env.extractCall file_key with
      | .error e => ([.download file_key, .extract file_key], .error e)
      | .ok _ =>
          match env.loadCall file_key with
          | .error e =>
              ([.download file_key, .extract file_key, .load file_key], .error e)
          | .ok _ =>
              ([.download file_key, .extract file_key, .load file_key], .ok ())

/-- The `for file_key in files:` loop (lines 241-242): strictly
sequential; a raising call aborts the remaining enumeration. -/
def processAll (env : Env) : List String → List FlowEvent × Except String Unit
  | [] => ([], .ok ())
  | k :: ks =>
      match process_document env k with
      | (tr, .error e) => (tr, .error e)
      | (tr, .ok _) =>
          match processAll env ks with
          | (tr2, out2) => (tr ++ tr2, out2)

/-- The per-file call pattern the loop is expected to produce when every
external call succeeds: download, extract, load for each key, in listing
order, with no interleaving. -/
def perFileTrace : List String → List FlowEvent
  | [] => []
  | k :: ks => [.download k, .extract k, .load k] ++ perFileTrace ks

/-- Embeds `s3_to_snowflake_flow` (lines 221-242): resolve the bucket
name secret and raise `ValueError` when it is falsy, before any other
call; then provision the bucket and the warehouse infrastructure, list
the files, return successfully when there are none, and otherwise
process each key in order. -/
def s3_to_snowflake_flow (env : Env) : List FlowEvent × Except String Unit :=
  let name := env.bucketNameSecret.getD ""
  if name = "" then ([], .error "S3 bucket name is required")
  else
    let pre : List FlowEvent := [.createBucket name, .setupSnowflake, .listFiles]
    let files := list_s3_files env.listing
    if files.isEmpty then (pre, .ok ())
    else
      match processAll env files with
      | (tr, out) => (pre ++ tr, out)

/-! ## Theorems -/

/-- A cursor for which every `execute` raises with text `boom`. -/
def failCursor : Cursor :=
  { exec := fun _ => .error "boom", fetch := fun _ => .ok [] }

/-- C4: for every statement, description and session handle, `_exec_sql`
never raises — its outcome is a normal return — and whenever the
execute-and-fetch attempt raises with text `e`, the emitted log is an
info line followed by a warning built from the lower-cased description
and the error text. -/
theorem exec_sql_never_raises (cur : Cursor) (sql desc : String) :
    (exec_sql cur sql desc).outcome = Except.ok () ∧
    (∀ e, attemptStmt cur sql = Except.error e →
      (exec_sql cur sql desc).log =
        [LogEvent.info ("Executing SQL: " ++ sql),
         LogEvent.warning ("Could not " ++ pyLower desc ++ ": " ++ e)]) := by
  refine ⟨rfl, fun e he => ?_⟩
  simp [exec_sql, he]

/-- Witness for C4 at a concrete always-raising cursor. -/
theorem exec_sql_never_raises_witness :
    (exec_sql failCursor "SELECT 1" "Test query").outcome = Except.ok () ∧
    (exec_sql failCursor "SELECT 1" "Test query").log =
      [LogEvent.info ("Executing SQL: " ++ "SELECT 1"),
       LogEvent.warning ("Could not " ++ pyLower "Test query" ++ ": " ++ "boom")] :=
  ⟨(exec_sql_never_raises failCursor "SELECT 1" "Test query").1,
   (exec_sql_never_raises failCursor "SELECT 1" "Test query").2 "boom" rfl⟩

/-- C5: an empty or absent `parse` result list makes the extraction step
fail with `ValueError("Empty results")` rather than return, and every
successfully returned `FormattedResult` comes from a non-empty result
list and is built, by `formatResult`, from its first element only. -/
theorem extraction_empty_fails (results : Option (List ParseResult))
    (file_key : String) (file_size : Nat) :
    ((results = none ∨ results = some []) →
      shape_extraction results file_key file_size = Except.error "Empty results") ∧
    (∀ fr, shape_extraction results file_key file_size = Except.ok fr →
      ∃ r rs, results = some (r :: rs) ∧ fr = formatResult r file_key file_size) := by
  constructor
  · rintro (rfl | rfl) <;> rfl
  · intro fr hfr
    match results with
    | none => simp [shape_extraction] at hfr
    | some [] => simp [shape_extraction] at hfr
    | some (r :: rs) =>
        refine ⟨r, rs, rfl, ?_⟩
        simpa [shape_extraction] using hfr.symm

/-- Witness for C5: the empty and the singleton response, concretely. -/
theorem extraction_empty_fails_witness :
    shape_extraction (some []) "a.pdf" 3 = Except.error "Empty results" :=
  (extraction_empty_fails (some []) "a.pdf" 3).1 (Or.inr rfl)

/-- C10: every successful extraction carries the fixed
`extraction_metadata` literal, independent of the input file, bytes or
run time. -/
theorem extraction_metadata_constant (results : Option (List ParseResult))
    (file_key : String) (file_size : Nat) (fr : FormattedResult)
    (h : shape_extraction results file_key file_size = Except.ok fr) :
    fr.data.extraction_metadata =
      { timestamp := "2025-06-06", library := "agentic-doc" } := by
  match results with
  | none => simp [shape_extraction] at h
  | some [] => simp [shape_extraction] at h
  | some (r :: rs) =>
      simp only [shape_extraction, Except.ok.injEq] at h
      rw [← h]
      rfl

/-- Witness for C10 at a concrete one-result response. -/
theorem extraction_metadata_constant_witness :
    (formatResult { markdown := some "m", strRepr := "m", chunks := some [] }
        "a.pdf" 3).data.extraction_metadata =
      { timestamp := "2025-06-06", library := "agentic-doc" } :=
  extraction_metadata_constant
    (some [{ markdown := some "m", strRepr := "m", chunks := some [] }]) "a.pdf" 3 _ rfl

/-- A concrete source chunk whose single grounding entry has a page but
no bounding box. -/
def chunkNoBox : SrcChunk :=
  { text := some "t", strRepr := "t", chunk_type := some "text", chunk_id := none
    grounding := some [{ page := some 5, box := none }] }

/-- C6 counterexample: a grounding entry lacking a bounding box is NOT
omitted from the produced grounding list — the chunk built from
`chunkNoBox` keeps that entry (with its page and no box field), so the
produced list has length 1 where the claim requires length 0. -/
theorem grounding_without_box_kept :
    (mkChunkDict chunkNoBox).grounding = some [{ page := 5, box := none }] ∧
    ((mkChunkDict chunkNoBox).grounding.getD []).length = 1 := by
  exact ⟨rfl, rfl⟩

/-- C6 amended: a chunk lacking an explicit type tag gets type
`"text"`; a chunk lacking grounding (absent attribute or empty list)
gets no grounding entry; and every grounding entry of the source is
kept, one-for-one, a missing page defaulting to `0` and an entry lacking
a bounding box being kept with no box field (rather than omitted). -/
theorem chunk_shaping (c : SrcChunk) :
    (c.chunk_type = none → (mkChunkDict c).chunk_type = "text") ∧
    ((c.grounding = none ∨ c.grounding = some []) →
      (mkChunkDict c).grounding = none) ∧
    (∀ gs, c.grounding = some gs → gs ≠ [] →
      (mkChunkDict c).grounding = some (gs.map mkGroundingDict)) ∧
    (∀ g : SrcGrounding, g.box = none →
      mkGroundingDict g = { page := g.page.getD 0, box := none }) := by
  refine ⟨fun h => ?_, fun h => ?_, fun gs hgs hne => ?_, fun g hg => ?_⟩
  · simp [mkChunkDict, h]
  · rcases h with h | h <;> simp [mkChunkDict, h]
  · simp [mkChunkDict, hgs, List.isEmpty_iff, hne]
  · simp [mkGroundingDict, hg]

/-- Witness for C6 (amended) at concrete chunks: a chunk with no type
tag and no grounding, and the `chunkNoBox` grounding entry. -/
theorem chunk_shaping_witness :
    (mkChunkDict { text := some "t", strRepr := "t", chunk_type := none,
                   chunk_id := none, grounding := none }).chunk_type = "text" ∧
    (mkChunkDict { text := some "t", strRepr := "t", chunk_type := none,
                   chunk_id := none, grounding := none }).grounding = none ∧
    (mkChunkDict chunkNoBox).grounding =
      some ([{ page := some 5, box := none }].map mkGroundingDict) ∧
    mkGroundingDict { page := some 5, box := none } = { page := 5, box := none } :=
  ⟨(chunk_shaping _).1 rfl,
   (chunk_shaping _).2.1 (Or.inl rfl),
   (chunk_shaping chunkNoBox).2.2.1 [{ page := some 5, box := none }] rfl (by decide),
   (chunk_shaping chunkNoBox).2.2.2 { page := some 5, box := none } rfl⟩

/-- C2: the MERGE inserts the row (last path segment, path, content)
exactly when no existing row has the same file path and changes nothing
otherwise; two loads of the same path leave exactly one matching record,
two loads of distinct paths leave two records, and the at-most-one-
record-per-path invariant is preserved by every load. -/
theorem merge_upsert_invariant (t : List DocRecord) (k k2 c c2 : String) :
    (t.any (fun r => r.file_path = k) = true → mergeDoc t k c = t) ∧
    (t.any (fun r => r.file_path = k) = false →
      mergeDoc t k c = t ++
        [{ file_name := lastSegment k, file_path := k, extracted_content := c }]) ∧
    countPath (mergeDoc (mergeDoc [] k c) k c2) k = 1 ∧
    (k ≠ k2 → (mergeDoc (mergeDoc [] k c) k2 c2).length = 2) ∧
    ((∀ p, countPath t p ≤ 1) → ∀ p, countPath (mergeDoc t k c) p ≤ 1) := by
  refine ⟨fun h => ?_, fun h => ?_, ?_, fun hk => ?_, fun hinv p => ?_⟩
  · simp [mergeDoc, h]
  · simp [mergeDoc, h]
  · simp [mergeDoc, countPath]
  · simp [mergeDoc, hk]
  · unfold mergeDoc
    by_cases hany : t.any (fun r => r.file_path = k) = true
    · simp only [hany, if_true]
      exact hinv p
    · have hfalse : t.any (fun r => r.file_path = k) = false := by
        simpa using hany
      have hnil : t.filter (fun r => r.file_path = k) = [] := by
        rw [List.filter_eq_nil_iff]
        intro r hr
        have h1 := (List.any_eq_false.mp hfalse) r hr
        simpa using h1
      rw [if_neg hany]
      by_cases hpk : p = k
      · subst hpk
        simp [countPath, List.filter_append, hnil]
      · have hstep : countPath (t ++
            [{ file_name := lastSegment k, file_path := k,
               extracted_content := c }]) p = countPath t p := by
          simp [countPath, List.filter_append, Ne.symm hpk]
        rw [hstep]
        exact hinv p

/-- Witness for C2 at concrete paths: two loads of `"a.pdf"` leave one
matching record, loads of `"a.pdf"` then `"b.jpg"` leave two records,
and a load into the empty table inserts the expected row. -/
theorem merge_upsert_invariant_witness :
    countPath (mergeDoc (mergeDoc [] "a.pdf" "x") "a.pdf" "y") "a.pdf" = 1 ∧
    (mergeDoc (mergeDoc [] "a.pdf" "x") "b.jpg" "y").length = 2 ∧
    mergeDoc [] "a/b.pdf" "x" =
      [{ file_name := lastSegment "a/b.pdf", file_path := "a/b.pdf",
         extracted_content := "x" }] :=
  ⟨(merge_upsert_invariant [] "a.pdf" "b.jpg" "x" "y").2.2.1,
   (merge_upsert_invariant [] "a.pdf" "b.jpg" "x" "y").2.2.2.1 (by decide),
   by simpa using (merge_upsert_invariant [] "a/b.pdf" "b" "x" "y").2.1 rfl⟩

/-- C1: whenever executing the qualified MERGE raises with text `e`,
the loader catches it, logs the `Qualified MERGE failed` warning, and
executes the unqualified variant exactly once more — the statement
trace is exactly the two context statements, the qualified MERGE, and
then the unqualified MERGE, nothing else; if the second attempt
succeeds the loader returns normally, and if it raises with text `e2`
that exception is the loader's outcome, unchanged. -/
theorem load_fallback_policy (cur : Cursor) (file_key e : String)
    (h : cur.exec merge_sql = Except.error e) :
    (load_to_snowflake cur file_key).statements =
      [use_database_sql, use_schema_sql, merge_sql, simple_merge_sql] ∧
    LogEvent.warning ("Qualified MERGE failed: " ++ e) ∈
      (load_to_snowflake cur file_key).log ∧
    (∀ rows, attemptStmt cur simple_merge_sql = Except.ok rows →
      (load_to_snowflake cur file_key).outcome = Except.ok ()) ∧
    (∀ e2, attemptStmt cur simple_merge_sql = Except.error e2 →
      (load_to_snowflake cur file_key).outcome = Except.error e2) := by
  have hatt : attemptStmt cur merge_sql = Except.error e := by
    simp [attemptStmt, h]
  cases hsim : attemptStmt cur simple_merge_sql with
  | ok rows0 =>
      refine ⟨?_, ?_, fun rows hr => ?_, fun e2 he2 => ?_⟩
      · simp [load_to_snowflake, hatt, hsim, exec_sql]
      · simp [load_to_snowflake, hatt, hsim, exec_sql]
      · simp [load_to_snowflake, hatt, hsim]
      · simp at he2
  | error e2' =>
      refine ⟨?_, ?_, fun rows hr => ?_, fun e2 he2 => ?_⟩
      · simp [load_to_snowflake, hatt, hsim, exec_sql]
      · simp [load_to_snowflake, hatt, hsim, exec_sql]
      · simp at hr
      · obtain rfl : e2' = e2 := by simpa using he2
        simp [load_to_snowflake, hatt, hsim]

/-- Witness for C1 at the always-raising cursor: both MERGE attempts
fail with `boom`, the trace shows both attempts in order, the warning
is logged, and the second exception is the outcome. -/
theorem load_fallback_policy_witness :
    (load_to_snowflake failCursor "doc.pdf").statements =
      [use_database_sql, use_schema_sql, merge_sql, simple_merge_sql] ∧
    LogEvent.warning ("Qualified MERGE failed: " ++ "boom") ∈
      (load_to_snowflake failCursor "doc.pdf").log ∧
    (load_to_snowflake failCursor "doc.pdf").outcome = Except.error "boom" :=
  ⟨(load_fallback_policy failCursor "doc.pdf" "boom" rfl).1,
   (load_fallback_policy failCursor "doc.pdf" "boom" rfl).2.1,
   (load_fallback_policy failCursor "doc.pdf" "boom" rfl).2.2.2 "boom" rfl⟩

/-- A cursor for which only the qualified CREATE TABLE statement
raises; every other execute and every fetch succeeds. -/
def createFailCursor : Cursor :=
  { exec := fun s =>
      if s = table_sql then .error "insufficient privileges" else .ok ()
    fetch := fun _ => .ok [] }

/-- C3 (refuting the claim on the code): with a session for which the
qualified CREATE TABLE raises, the provisioner's statement trace is
exactly the five setup statements, the context query and the qualified
create — the unqualified `simple_table_sql` is never executed, because
`_exec_sql` swallows the exception and the `except:` fallback branch is
therefore unreachable; the failure surfaces only as the executor's
warning. -/
theorem setup_fallback_unreachable :
    (setup_snowflake_infrastructure createFailCursor).statements =
      [warehouse_sql, database_sql, use_database_sql, schema_sql,
       use_schema_sql, context_sql, table_sql] ∧
    List.count simple_table_sql
      (setup_snowflake_infrastructure createFailCursor).statements = 0 ∧
    LogEvent.warning
        ("Could not " ++ pyLower "Create qualified table" ++ ": " ++
          "insufficient privileges") ∈
      (setup_snowflake_infrastructure createFailCursor).log := by
  refine ⟨by decide, by decide, by decide⟩

/-- C7: when the secret resolves and the bucket listing is empty or
absent, the flow performs only the provisioning and listing calls —
the trace has no download, extract or load event — and returns
normally. -/
theorem empty_listing_no_processing (env : Env) (name : String)
    (hn : env.bucketNameSecret = some name) (hne : name ≠ "")
    (hl : env.listing = none ∨ env.listing = some []) :
    (s3_to_snowflake_flow env).1 =
      [FlowEvent.createBucket name, FlowEvent.setupSnowflake, FlowEvent.listFiles] ∧
    ((s3_to_snowflake_flow env).1.filter isProcessingEvent) = [] ∧
    (s3_to_snowflake_flow env).2 = Except.ok () := by
  have hfiles : list_s3_files env.listing = [] := by
    rcases hl with h | h <;> simp [list_s3_files, h]
  refine ⟨?_, ?_, ?_⟩ <;>
    simp [s3_to_snowflake_flow, hn, hne, hfiles, isProcessingEvent]

/-- An environment whose bucket listing is absent. -/
def emptyListingEnv : Env :=
  { bucketNameSecret := some "my-bucket"
    listing := none
    download := fun _ => .ok ""
    extractCall := fun _ => .error "unused"
    loadCall := fun _ => .ok () }

/-- Witness for C7 at `emptyListingEnv`. -/
theorem empty_listing_no_processing_witness :
    (s3_to_snowflake_flow emptyListingEnv).1 =
      [FlowEvent.createBucket "my-bucket", FlowEvent.setupSnowflake,
       FlowEvent.listFiles] ∧
    ((s3_to_snowflake_flow emptyListingEnv).1.filter isProcessingEvent) = [] ∧
    (s3_to_snowflake_flow emptyListingEnv).2 = Except.ok () :=
  empty_listing_no_processing emptyListingEnv "my-bucket" rfl (by decide) (Or.inl rfl)

/-- The per-file loop: when every download, extract and load succeeds,
`processAll` produces exactly the `perFileTrace` pattern and succeeds. -/
theorem processAll_all_ok (env : Env)
    (hd : ∀ k, ∃ v, env.download k = Except.ok v)
    (he : ∀ k, ∃ fr, env.extractCall k = Except.ok fr)
    (hl : ∀ k, env.loadCall k = Except.ok ()) :
    ∀ ks, processAll env ks = (perFileTrace ks, Except.ok ())
  | [] => rfl
  | k :: ks => by
      obtain ⟨v, hv⟩ := hd k
      obtain ⟨fr, hf⟩ := he k
      have hpd : process_document env k =
          ([FlowEvent.download k, FlowEvent.extract k, FlowEvent.load k],
            Except.ok ()) := by
        simp [process_document, hv, hf, hl k]
      simp [processAll, hpd, processAll_all_ok env hd he hl ks, perFileTrace]

/-- C8: for a non-empty listing, when every external call succeeds the
flow's trace is the provisioning calls followed by download, extract,
load for each key, in listing order, with no interleaving, one triple
per key. -/
theorem sequential_processing (env : Env) (name : String) (objs : List S3Object)
    (hn : env.bucketNameSecret = some name) (hne : name ≠ "")
    (hlist : env.listing = some objs) (hno : objs ≠ [])
    (hd : ∀ k, ∃ v, env.download k = Except.ok v)
    (he : ∀ k, ∃ fr, env.extractCall k = Except.ok fr)
    (hl : ∀ k, env.loadCall k = Except.ok ()) :
    s3_to_snowflake_flow env =
      ([FlowEvent.createBucket name, FlowEvent.setupSnowflake,
        FlowEvent.listFiles] ++ perFileTrace (objs.map fun o => o.Key),
       Except.ok ()) := by
  have hfiles : list_s3_files env.listing = objs.map fun o => o.Key := by
    simp [list_s3_files, hlist, hno]
  have hne2 : (objs.map fun o => o.Key) ≠ [] := by simpa using hno
  simp [s3_to_snowflake_flow, hn, hne, hfiles, hne2,
    processAll_all_ok env hd he hl]

/-- An environment with two files and all external calls succeeding. -/
def happyEnv : Env :=
  { bucketNameSecret := some "my-bucket"
    listing := some [{ Key := "a.pdf" }, { Key := "b.jpg" }]
    download := fun _ => .ok "bytes"
    extractCall := fun _ =>
      .ok (formatResult { markdown := some "m", strRepr := "m", chunks := some [] } "k" 1)
    loadCall := fun _ => .ok () }

/-- Witness for C8: bucket `["a.pdf", "b.jpg"]` yields the two per-file
triples in listing order. -/
theorem sequential_processing_witness :
    s3_to_snowflake_flow happyEnv =
      ([FlowEvent.createBucket "my-bucket", FlowEvent.setupSnowflake,
        FlowEvent.listFiles] ++ perFileTrace ["a.pdf", "b.jpg"],
       Except.ok ()) :=
  sequential_processing happyEnv "my-bucket"
    [{ Key := "a.pdf" }, { Key := "b.jpg" }] rfl (by decide) rfl (by decide)
    (fun _ => ⟨"bytes", rfl⟩) (fun _ => ⟨_, rfl⟩) (fun _ => rfl)

/-- C9: a missing or empty bucket-name secret makes the flow raise the
configuration error with an empty trace — no bucket existence check, no
listing, no download and no warehouse call is attempted. -/
theorem missing_secret_aborts (env : Env)
    (h : env.bucketNameSecret = none ∨ env.bucketNameSecret = some "") :
    s3_to_snowflake_flow env = ([], Except.error "S3 bucket name is required") := by
  rcases h with h | h <;> simp [s3_to_snowflake_flow, h]

/-- An environment whose bucket-name secret is absent. -/
def noSecretEnv : Env :=
  { bucketNameSecret := none
    listing := some [{ Key := "a.pdf" }]
    download := fun _ => .ok ""
    extractCall := fun _ => .error "unused"
    loadCall := fun _ => .ok () }

/-- Witness for C9 at `noSecretEnv`. -/
theorem missing_secret_aborts_witness :
    s3_to_snowflake_flow noSecretEnv = ([], Except.error "S3 bucket name is required") :=
  missing_secret_aborts noSecretEnv (Or.inl rfl)

end S3ToSnowflake
